import Mathlib

/-!
Shallow embedding of the Smart Krishi backend (src/main.py, src/schemas.py).

Modelling conventions:
- JSON/BSON-like runtime values are the inductive `Value`; Python dicts become
  association lists `Doc := List (String × Value)` (insertion ordered, unique
  keys, exactly as Python dicts behave for the documents this program builds).
- Python floats are modelled as rationals `ℚ`; on every concrete number the
  claims touch, IEEE double arithmetic and exact rational arithmetic agree.
- `datetime` values are an abstract tick counter `Nat`; `isoformat` is an
  abstract injective textual rendering of a tick.
- The document store is explicit state (`Store`); handlers are state-passing
  functions returning `Store × Except HTTPError Value`.
- `database.py` is not among the sources; its adapter `create_document` is
  modelled from the spec (see its doc comment). `update_one` / `find_one`
  follow the pymongo contract used by main.py (first matching document).
-/

namespace SmartKrishi

/-- Runtime values crossing the API boundary. `vObjectId` is the store-native
identifier type and `vDateTime` a timestamp; both are kept as distinct
constructors because `oid_to_str` branches on them. -/
inductive Value : Type where
  | vNull : Value
  | vBool : Bool → Value
  | vNum : ℚ → Value
  | vStr : String → Value
  | vObjectId : Nat → Value
  | vDateTime : Nat → Value
  | vList : List Value → Value
  | vDoc : List (String × Value) → Value

/-- A Python dict holding document fields, in insertion order. -/
abbrev Doc := List (String × Value)

/-- Abstract rendering of `str(ObjectId)` (a hex string in Python). -/
def strOfOid (n : Nat) : String := toString n

/-- Abstract rendering of `datetime.isoformat()` for a tick counter. -/
def isoformat (t : Nat) : String := "1970-01-01T00:00:" ++ toString t

/-- Python truthiness of a value (`if not doc`, `if d.get("_id")`). -/
def Value.truthy : Value → Bool
  | .vNull => false
  | .vBool b => b
  | .vNum q => decide (q ≠ 0)
  | .vStr s => !(s == "")
  | .vObjectId _ => true
  | .vDateTime _ => true
  | .vList l => !l.isEmpty
  | .vDoc d => !d.isEmpty

/-- Python `str(v)` for the values that can sit under `"_id"`. -/
def Value.pyStr : Value → String
  | .vStr s => s
  | .vObjectId n => strOfOid n
  | .vDateTime t => isoformat t
  | .vNum q => toString q.num ++ "/" ++ toString q.den
  | .vBool b => if b then "True" else "False"
  | .vNull => "None"
  | .vList _ => "<list>"
  | .vDoc _ => "<dict>"

/-- Python `d.get(k)` (first entry wins; dicts have unique keys anyway). -/
def dictGet (d : Doc) (k : String) : Option Value :=
  (d.find? (fun p => p.1 == k)).map (fun p => p.2)

/-- Python `d.pop(k)`: the dict without key `k`. -/
def dictRemove (d : Doc) (k : String) : Doc :=
  d.filter (fun p => !(p.1 == k))

/-- Python `d[k] = v`: update in place if the key exists (keys are unique in
a Python dict, so replacing the first occurrence is exact), else append. -/
def dictSet : Doc → String → Value → Doc
  | [], k, v => [(k, v)]
  | p :: ps, k, v => if p.1 == k then (k, v) :: ps else p :: dictSet ps k v

/-- One step of the `isoformat` loop body: `d[k] = v.isoformat()` when
`hasattr(v, "isoformat")`, i.e. when `v` is a datetime. -/
def isoConv : Value → Value
  | .vDateTime t => .vStr (isoformat t)
  | v => v

/-- The `for k, v in list(d.items())` loop of `oid_to_str`: convert every
datetime-valued field to its iso string, in place. -/
def mapIso (d : Doc) : Doc := d.map (fun p => (p.1, isoConv p.2))

/-- The `_id` renaming step of `oid_to_str`:
`if d.get("_id"): d["id"] = str(d.pop("_id"))`. -/
def renameId (d : Doc) : Doc :=
  match dictGet d "_id" with
  | some v => if v.truthy then dictSet (dictRemove d "_id") "id" (.vStr v.pyStr) else d
  | none => d

/-- The dict branch of `oid_to_str` (rename `_id`, then the isoformat loop). -/
def normDict (d : Doc) : Doc := mapIso (renameId d)

mutual

/-- `oid_to_str` from main.py: the boundary normalization. Falsy inputs (and
any non-list, non-dict value) are returned unchanged; lists are normalized
element-wise; dicts get `_id` renamed to a string `id` and datetimes rendered
as iso strings (top level only — the dict branch does not recurse). -/
def oid_to_str : Value → Value
  | .vList l => if l.isEmpty then .vList l else .vList (oid_to_str_list l)
  | .vDoc d => if d.isEmpty then .vDoc d else .vDoc (normDict d)
  | v => v

/-- Element-wise normalization of a list (`[oid_to_str(d) for d in doc]`). -/
def oid_to_str_list : List Value → List Value
  | [] => []
  | v :: vs => oid_to_str v :: oid_to_str_list vs

end

mutual

/-- A value is clean when it contains no store-native identifier and no
raw (non-textual) timestamp anywhere. -/
def Value.clean : Value → Bool
  | .vObjectId _ => false
  | .vDateTime _ => false
  | .vList l => cleanList l
  | .vDoc d => cleanDoc d
  | _ => true

/-- All members of a list are clean. -/
def cleanList : List Value → Bool
  | [] => true
  | v :: vs => v.clean && cleanList vs

/-- All values of a dict are clean. -/
def cleanDoc : List (String × Value) → Bool
  | [] => true
  | p :: ps => p.2.clean && cleanDoc ps

end

/-- Is this value the store-native identifier type? -/
def isObjectId : Value → Bool
  | .vObjectId _ => true
  | _ => false

/-- Is this value a raw (non-textual) timestamp? -/
def isDateTime : Value → Bool
  | .vDateTime _ => true
  | _ => false

/-- The shape of a stored document's field, as this program creates them:
the `_id` field holds the store-generated ObjectId, and every other field is
either a raw timestamp or a value free of ObjectIds and timestamps. -/
def valShape (k : String) (v : Value) : Bool :=
  if k == "_id" then isObjectId v else (isDateTime v || v.clean)

/-- A store-shaped document: every field satisfies `valShape`. -/
def docShapeB (d : Doc) : Bool := d.all (fun p => valShape p.1 p.2)

-- ----------------------------------------------------------------------
-- Errors and store state
-- ----------------------------------------------------------------------

/-- A raised `HTTPException status_code detail`. -/
structure HTTPError where
  status : Nat
  detail : String

/-- `HTTPException(status_code=400, detail="Phone is required")` — the
`MissingField` client error of the spec's taxonomy. -/
def missingFieldErr : HTTPError := ⟨400, "Phone is required"⟩

/-- `HTTPException(status_code=400, detail="Empty image")` — the
`EmptyPayload` client error of the spec's taxonomy. -/
def emptyPayloadErr : HTTPError := ⟨400, "Empty image"⟩

/-- The document store: one list of documents per collection touched by the
handlers, plus the counter from which fresh ObjectIds are drawn. -/
structure Store where
  nextId : Nat
  user : List Doc
  cropdiagnosis : List Doc
  mandiprice : List Doc
  notifications : List Doc

/-- The store with no documents. -/
def emptyStore : Store := ⟨0, [], [], [], []⟩

/-- Does this document carry `_id = ObjectId oid`? -/
def hasOid (d : Doc) (oid : Nat) : Bool :=
  match dictGet d "_id" with
  | some (.vObjectId m) => m == oid
  | _ => false

/-- Modelled from the spec: `create_document(collection, doc)` lives in
`database.py`, which is not among the sources; per §4.1 of the spec it inserts
the document into the named collection with a store-generated identifier and
returns that identifier as an opaque string. We model the generated ObjectId
as the store's `nextId` counter, passed in by the handler, and the returned
string is `strOfOid oid`. -/
def create_document (coll : List Doc) (oid : Nat) (doc : Doc) : List Doc :=
  coll ++ [dictSet doc "_id" (.vObjectId oid)]

/-- pymongo `update_one({"_id": ObjectId(id)}, {"$set": {k: v}})`: set field
`k` on the first document whose `_id` matches. -/
def update_one (coll : List Doc) (oid : Nat) (k : String) (v : Value) : List Doc :=
  match coll with
  | [] => []
  | d :: ds => if hasOid d oid then dictSet d k v :: ds else d :: update_one ds oid k v

/-- pymongo `find_one({"_id": ObjectId(id)})`: first document whose `_id`
matches, if any. -/
def find_one (coll : List Doc) (oid : Nat) : Option Doc :=
  coll.find? (fun d => hasOid d oid)

/-- No document of the collection already carries this ObjectId (always true
of a store-generated fresh id). -/
def freshFor (coll : List Doc) (oid : Nat) : Bool :=
  coll.all (fun d => !(hasOid d oid))

-- ----------------------------------------------------------------------
-- Registration handler
-- ----------------------------------------------------------------------

/-- The `RegisterPayload` pydantic model. -/
structure RegisterPayload where
  name : String
  phone : String
  village : Option String
  district : Option String
  crops : Option (List String)
  otp : Option String

/-- An optional string field as a stored value (`None` becomes null). -/
def optStr : Option String → Value
  | some s => .vStr s
  | none => .vNull

/-- `register_user` from main.py. `now` is the current tick
(`datetime.utcnow()`); the fresh ObjectId is the store's `nextId`. -/
def register_user (p : RegisterPayload) (now : Nat) (s : Store) :
    Store × Except HTTPError Value :=
  if p.phone = "" then (s, .error missingFieldErr)
  else
    let user_doc : Doc :=
      [("name", .vStr p.name), ("phone", .vStr p.phone),
       ("village", optStr p.village), ("district", optStr p.district),
       ("crops", .vList ((p.crops.getD []).map Value.vStr)),
       ("createdAt", .vDateTime now)]
    let oid := s.nextId
    let coll := update_one (create_document s.user oid user_doc) oid "userId"
      (.vStr (strOfOid oid))
    let s2 : Store := { s with nextId := oid + 1, user := coll }
    (s2, match find_one coll oid with
         | some saved => .ok (oid_to_str (.vDoc saved))
         | none => .ok (oid_to_str .vNull))

-- ----------------------------------------------------------------------
-- Disease detection handler
-- ----------------------------------------------------------------------

/-- The synthesized pseudo-URL for the uploaded image
(`f"https://files.smartkrishi.example/{timestamp}_{filename}"`). -/
def uploadUrl (now : Nat) (filename : String) : String :=
  "https://files.smartkrishi.example/" ++ toString now ++ "_" ++ filename

/-- The document `record` built by `detect_disease`: the mocked ML result
(diseaseName "Leaf Blight", probability 0.87) plus the request data. -/
def diagnosisRecord (userId crop filename : String) (now : Nat) : Doc :=
  [("userId", .vStr userId), ("crop", .vStr crop),
   ("imageURL", .vStr (uploadUrl now filename)),
   ("diseaseName", .vStr "Leaf Blight"),
   ("probability", .vNum (87/100)),
   ("recommendation",
    .vStr "Spray copper-based fungicide; remove infected leaves; ensure proper spacing."),
   ("pesticide", .vStr "Copper Oxychloride 50% WP"),
   ("date", .vDateTime now)]

/-- `detect_disease` from main.py. `content` is the byte content of the
uploaded image. -/
def detect_disease (userId crop filename : String) (content : List Nat)
    (now : Nat) (s : Store) : Store × Except HTTPError Value :=
  if content.length = 0 then (s, .error emptyPayloadErr)
  else
    let record : Doc := diagnosisRecord userId crop filename now
    let oid := s.nextId
    let coll := update_one (create_document s.cropdiagnosis oid record) oid
      "diagnosisId" (.vStr (strOfOid oid))
    let s2 : Store := { s with nextId := oid + 1, cropdiagnosis := coll }
    (s2, match find_one coll oid with
         | some saved => .ok (oid_to_str (.vDoc saved))
         | none => .ok (oid_to_str .vNull))

-- ----------------------------------------------------------------------
-- Weather handler
-- ----------------------------------------------------------------------

/-- One entry of the provider's `data["list"]`, holding the fields the
handler reads: `dt_txt`, `main.temp`, `main.humidity`, the list of
`weather[i].description` strings, and the optional `rain["3h"]` amount. -/
structure WItem where
  dt_txt : String
  temp : ℚ
  humidity : ℚ
  weatherDesc : List String
  rain3h : Option ℚ

/-- A successful provider response body. -/
structure WeatherData where
  list : List WItem

/-- `item.get("rain", \x7b\x7d).get("3h", 0)`. -/
def rainAmt (i : WItem) : ℚ := i.rain3h.getD 0

/-- One entry of the shaped forecast list. -/
def forecastEntry (i : WItem) : Value :=
  .vDoc [("time", .vStr i.dt_txt), ("temp", .vNum i.temp),
         ("rain", .vNum (rainAmt i))]

/-- The alert loop: `for f in forecast: if f["rain"] and f["rain"] > 5:
alerts.append("Heavy rain expected")`. The first conjunct is Python numeric
truthiness (nonzero). -/
def alertsOf (items : List WItem) : List Value :=
  (items.filter (fun i => decide (rainAmt i ≠ 0) && decide ((5:ℚ) < rainAmt i))).map
    (fun _ => Value.vStr "Heavy rain expected")

/-- Python `s[:n]`. -/
def strTake (n : Nat) (s : String) : String := (s.toList.take n).asString

/-- `HTTPException(502, f"Weather API error: {str(e)[:120]}")` — the
`UpstreamError` of the spec's taxonomy. -/
def upstreamErr (e : String) : HTTPError :=
  ⟨502, "Weather API error: " ++ strTake 120 e⟩

/-- The fixed mock payload returned when no provider key is configured. -/
def mockWeather (loc : String) : Value :=
  .vDoc [("location", .vStr loc), ("mock", .vBool true),
    ("current", .vDoc [("temp", .vNum 29), ("humidity", .vNum 62),
      ("desc", .vStr "Partly cloudy")]),
    ("forecast_3h", .vList [
      .vDoc [("time", .vStr "+3h"), ("temp", .vNum 30), ("rain", .vNum 0)],
      .vDoc [("time", .vStr "+6h"), ("temp", .vNum 31), ("rain", .vNum 0)],
      .vDoc [("time", .vStr "+9h"), ("temp", .vNum 28), ("rain", .vNum 1)]]),
    ("alerts", .vList [Value.vStr "No severe alerts"])]

/-- `get_weather` from main.py. `apiKey` is `OPENWEATHER_API_KEY` (empty when
unset); `resp` is the outcome of the provider HTTP call (`.error` models a
network failure or non-success status raised by `raise_for_status`). Indexing
an empty `data["list"]` or an empty `weather` array raises inside the `try`
and surfaces as the same 502. -/
def get_weather (apiKey loc : String) (resp : Except String WeatherData) :
    Except HTTPError Value :=
  if apiKey = "" then .ok (mockWeather loc)
  else
    match resp with
    | .error e => .error (upstreamErr e)
    | .ok data =>
      match data.list with
      | [] => .error (upstreamErr "list index out of range")
      | curr :: _ =>
        match curr.weatherDesc with
        | [] => .error (upstreamErr "list index out of range")
        | desc :: _ =>
          let forecast := (data.list.take 5).map forecastEntry
          let alerts := alertsOf (data.list.take 5)
          .ok (.vDoc [("location", .vStr loc), ("mock", .vBool false),
            ("current", .vDoc [("temp", .vNum curr.temp),
              ("humidity", .vNum curr.humidity), ("desc", .vStr desc)]),
            ("forecast_3h", .vList forecast),
            ("alerts", .vList (if alerts.isEmpty then [Value.vStr "No severe alerts"]
              else alerts))])

-- ----------------------------------------------------------------------
-- Mandi price handler
-- ----------------------------------------------------------------------

/-- Sort key for `.sort("updatedAt", -1)`: the raw timestamp when present. -/
def updatedAtKey (d : Doc) : Nat :=
  match dictGet d "updatedAt" with
  | some (.vDateTime t) => t
  | _ => 0

/-- Insert into a list sorted descending by `updatedAtKey`. -/
def insertDesc (d : Doc) : List Doc → List Doc
  | [] => [d]
  | e :: es => if updatedAtKey e < updatedAtKey d then d :: e :: es
               else e :: insertDesc d es

/-- `.sort("updatedAt", -1)`: descending by stored timestamp. -/
def sortByUpdatedAtDesc : List Doc → List Doc
  | [] => []
  | d :: ds => insertDesc d (sortByUpdatedAtDesc ds)

/-- The mongo filter `{"district": district}`: field equality. -/
def districtIs (d : Doc) (district : String) : Bool :=
  match dictGet d "district" with
  | some (.vStr x) => x == district
  | _ => false

/-- The mock fallback list of the mandi handler: two fixed entries (Wheat,
Rice) tagged with the queried district, `updatedAt` already rendered by
`.isoformat()` at request time (`now`). -/
def mandiMockList (district : String) (now : Nat) : List Value :=
  [ .vDoc [("district", .vStr district), ("crop", .vStr "Wheat"),
      ("price", .vNum 1850), ("updatedAt", .vStr (isoformat now))],
    .vDoc [("district", .vStr district), ("crop", .vStr "Rice"),
      ("price", .vNum 2100), ("updatedAt", .vStr (isoformat now))] ]

/-- `get_mandi_prices` from main.py: stored prices for the district, newest
first, normalized; else the mock fallback (`if items: ... else mock`). The
query never writes, so the store passes through unchanged. -/
def get_mandi_prices (district : String) (now : Nat) (s : Store) :
    Store × Except HTTPError Value :=
  let items := sortByUpdatedAtDesc (s.mandiprice.filter (fun d => districtIs d district))
  if items.isEmpty then (s, .ok (.vList (mandiMockList district now)))
  else (s, .ok (oid_to_str (.vList (items.map Value.vDoc))))

-- ----------------------------------------------------------------------
-- Fertilizer recommendation handler
-- ----------------------------------------------------------------------

/-- The `FertilizerInput` pydantic model. -/
structure FertilizerInput where
  crop : String
  soil : String

/-- The per-crop base nutrient table with its generic default
(`base.get(payload.crop, \x7b"N": 90, "P": 40, "K": 40\x7d)`). -/
def baseTable (crop : String) : ℚ × ℚ × ℚ :=
  if crop = "Wheat" then (120, 60, 40)
  else if crop = "Rice" then (100, 50, 50)
  else if crop = "Cotton" then (150, 60, 60)
  else (90, 40, 40)

/-- Python `round(q, places)` on the exact rational value. Python rounds
ties to even on binary doubles; no value arising in this program is a tie at
the rounded digit, so the tie-breaking convention is immaterial and exact
rational rounding agrees with the float computation on every value used. -/
def roundTo (places : Nat) (q : ℚ) : ℚ :=
  (⌊q * (10:ℚ)^places + 1/2⌋ : ℚ) / (10:ℚ)^places

/-- Python `s.lower()`: per-character lowercasing (the code only compares the
result against the ASCII strings "loam" and "clay"). -/
def strLower (s : String) : String := String.mk (s.data.map Char.toLower)

/-- The soil multiplier:
`1.0 if payload.soil.lower() in ["loam", "clay"] else 0.9`. -/
def fertMult (soil : String) : ℚ :=
  if strLower soil = "loam" ∨ strLower soil = "clay" then 1 else 9/10

/-- `fertilizer_recommendation` from main.py: pure rule-based computation. -/
def fertilizer_recommendation (p : FertilizerInput) : Value :=
  let nutrients := baseTable p.crop
  let multiplier : ℚ := fertMult p.soil
  let recN := roundTo 1 (nutrients.1 * multiplier)
  let recP := roundTo 1 (nutrients.2.1 * multiplier)
  let recK := roundTo 1 (nutrients.2.2 * multiplier)
  let cost := roundTo 2 (recN * (3/2) + recP * 2 + recK * (9/5))
  .vDoc [("crop", .vStr p.crop), ("soil", .vStr p.soil),
    ("nutrients", .vDoc [("N", .vNum recN), ("P", .vNum recP), ("K", .vNum recK)]),
    ("costEstimate", .vNum cost),
    ("lowCostAlternative", .vStr "Use compost + neem cake to replace 20% NPK")]

/-- Read a field of a JSON-object value (used to state response properties). -/
def getField (v : Value) (k : String) : Option Value :=
  match v with
  | .vDoc d => dictGet d k
  | _ => none

-- ----------------------------------------------------------------------
-- Helper lemmas on dictionaries
-- ----------------------------------------------------------------------

theorem dictGet_dictSet_self (d : Doc) (k : String) (v : Value) :
    dictGet (dictSet d k v) k = some v := by
  induction d with
  | nil => simp [dictSet, dictGet]
  | cons p ps ih =>
    by_cases h : p.1 == k
    · simp [dictSet, h, dictGet]
    · simp [dictSet, h, dictGet, List.find?] at ih ⊢
      simpa [h] using ih

theorem dictGet_dictSet_ne (d : Doc) (k k' : String) (v : Value) (h : k ≠ k') :
    dictGet (dictSet d k' v) k = dictGet d k := by
  induction d with
  | nil =>
    have hne : (k' == k) = false := by simpa [beq_iff_eq] using fun hh => h hh.symm
    simp [dictSet, dictGet, List.find?, hne]
  | cons p ps ih =>
    by_cases hp : p.1 == k'
    · have hpk : (p.1 == k) = false := by
        have : p.1 = k' := by simpa [beq_iff_eq] using hp
        simp [this, beq_iff_eq]
        exact fun hh => h hh.symm
      simp [dictSet, hp, dictGet, List.find?, hpk,
        show (k' == k) = false by simpa [beq_iff_eq] using fun hh => h hh.symm]
    · by_cases hk : p.1 == k
      · simp [dictSet, hp, dictGet, List.find?, hk]
      · simp [dictSet, hp, dictGet, List.find?, hk] at ih ⊢
        exact ih

theorem dictGet_dictRemove_self (d : Doc) (k : String) :
    dictGet (dictRemove d k) k = none := by
  induction d with
  | nil => simp [dictRemove, dictGet]
  | cons p ps ih =>
    by_cases hp : p.1 == k
    · simpa [dictRemove, hp] using ih
    · simp only [dictRemove, List.filter, hp, Bool.not_false, dictGet, List.find?] at ih ⊢
      simp [hp]

theorem dictGet_dictRemove_ne (d : Doc) (k k' : String) (h : k ≠ k') :
    dictGet (dictRemove d k') k = dictGet d k := by
  induction d with
  | nil => simp [dictRemove, dictGet]
  | cons p ps ih =>
    by_cases hp : p.1 == k'
    · have hpk : (p.1 == k) = false := by
        have : p.1 = k' := by simpa [beq_iff_eq] using hp
        simp [this, beq_iff_eq]
        exact fun hh => h hh.symm
      simpa [dictRemove, hp, dictGet, List.find?, hpk] using ih
    · by_cases hk : p.1 == k
      · simp [dictRemove, hp, dictGet, List.find?, hk]
      · simpa [dictRemove, hp, dictGet, List.find?, hk] using ih

theorem dictGet_mapIso (d : Doc) (k : String) :
    dictGet (mapIso d) k = (dictGet d k).map isoConv := by
  induction d with
  | nil => simp [mapIso, dictGet]
  | cons p ps ih =>
    by_cases hp : p.1 == k
    · simp [mapIso, dictGet, List.find?, hp]
    · simpa [mapIso, dictGet, List.find?, hp] using ih

theorem oid_to_str_list_eq_map (l : List Value) :
    oid_to_str_list l = l.map oid_to_str := by
  induction l with
  | nil => rfl
  | cons v vs ih => simp [oid_to_str_list, ih]

-- ----------------------------------------------------------------------
-- Claims
-- ----------------------------------------------------------------------

/-- Claim C2: a registration request whose phone field is the empty string
fails with the `MissingField` client error (HTTP 400, "Phone is required"),
before any persistence: the store is returned unchanged, so no User record is
created. -/
theorem register_user_empty_phone (p : RegisterPayload) (now : Nat) (s : Store)
    (h : p.phone = "") :
    register_user p now s = (s, .error missingFieldErr) ∧
    missingFieldErr.status = 400 ∧
    (register_user p now s).1.user = s.user := by
  have h1 : register_user p now s = (s, .error missingFieldErr) := by
    simp [register_user, h]
  exact ⟨h1, rfl, by rw [h1]⟩

/-- Witness for C2 at a concrete empty-phone payload and the empty store. -/
theorem register_user_empty_phone_witness :
    (RegisterPayload.mk "Asha" "" none none none none).phone = "" ∧
    (register_user ⟨"Asha", "", none, none, none, none⟩ 0 emptyStore
        = (emptyStore, .error missingFieldErr) ∧
      missingFieldErr.status = 400 ∧
      (register_user ⟨"Asha", "", none, none, none, none⟩ 0 emptyStore).1.user
        = emptyStore.user) :=
  ⟨rfl, register_user_empty_phone ⟨"Asha", "", none, none, none, none⟩ 0 emptyStore rfl⟩

/-- Claim C3: a disease-detection request whose image payload has zero length
fails with the `EmptyPayload` client error (HTTP 400, "Empty image") and the
store is returned unchanged, so no CropDiagnosis record is persisted. -/
theorem detect_disease_empty_payload (userId crop filename : String)
    (content : List Nat) (now : Nat) (s : Store) (h : content.length = 0) :
    detect_disease userId crop filename content now s = (s, .error emptyPayloadErr) ∧
    emptyPayloadErr.status = 400 ∧
    (detect_disease userId crop filename content now s).1.cropdiagnosis
      = s.cropdiagnosis := by
  have h1 : detect_disease userId crop filename content now s
      = (s, .error emptyPayloadErr) := by
    simp [detect_disease, h]
  exact ⟨h1, rfl, by rw [h1]⟩

/-- Witness for C3 at a concrete zero-length upload and the empty store. -/
theorem detect_disease_empty_payload_witness :
    (([] : List Nat).length = 0) ∧
    (detect_disease "u1" "Wheat" "leaf.jpg" [] 0 emptyStore
        = (emptyStore, .error emptyPayloadErr) ∧
      emptyPayloadErr.status = 400 ∧
      (detect_disease "u1" "Wheat" "leaf.jpg" [] 0 emptyStore).1.cropdiagnosis
        = emptyStore.cropdiagnosis) :=
  ⟨rfl, detect_disease_empty_payload "u1" "Wheat" "leaf.jpg" [] 0 emptyStore rfl⟩

/-- Claim C5: with no provider credential configured (empty key), the weather
handler returns the fixed mock payload for every location: tagged mock=true,
a forecast list of exactly 3 entries, the single default "No severe alerts"
message, and the payload does not depend on the provider response, so any two
calls with the same location return the identical payload. -/
theorem get_weather_no_key_mock (loc : String) (r1 r2 : Except String WeatherData) :
    get_weather "" loc r1 = .ok (mockWeather loc) ∧
    get_weather "" loc r1 = get_weather "" loc r2 ∧
    getField (mockWeather loc) "mock" = some (.vBool true) ∧
    (∃ fc : List Value, getField (mockWeather loc) "forecast_3h" = some (.vList fc) ∧
      fc.length = 3) ∧
    getField (mockWeather loc) "alerts" = some (.vList [.vStr "No severe alerts"]) := by
  refine ⟨by simp [get_weather], by simp [get_weather], rfl,
    ⟨[ .vDoc [("time", .vStr "+3h"), ("temp", .vNum 30), ("rain", .vNum 0)],
       .vDoc [("time", .vStr "+6h"), ("temp", .vNum 31), ("rain", .vNum 0)],
       .vDoc [("time", .vStr "+9h"), ("temp", .vNum 28), ("rain", .vNum 1)]],
     rfl, rfl⟩, rfl⟩

/-- Claim C7: the fertilizer recommendation for crop="Wheat", soil="Loam" has
nutrients N=120, P=60, K=40 and costEstimate exactly 372, where 372 is the
linear combination N*1.5 + P*2 + K*1.8 rounded to two decimals. -/
theorem fertilizer_wheat_loam :
    fertilizer_recommendation ⟨"Wheat", "Loam"⟩ =
      .vDoc [("crop", .vStr "Wheat"), ("soil", .vStr "Loam"),
        ("nutrients", .vDoc [("N", .vNum 120), ("P", .vNum 60), ("K", .vNum 40)]),
        ("costEstimate", .vNum 372),
        ("lowCostAlternative", .vStr "Use compost + neem cake to replace 20% NPK")] ∧
    (372 : ℚ) = roundTo 2 (120 * (3/2) + 60 * 2 + 40 * (9/5)) := by
  have hsoil : strLower "Loam" = "loam" := by decide
  constructor
  · simp only [fertilizer_recommendation, baseTable, fertMult, hsoil]
    norm_num [roundTo]
  · norm_num [roundTo]

/-- Claim C9: querying mandi prices for a district with no stored records
returns exactly the two mock entries (Wheat at 1850, Rice at 2100), each
tagged with the queried district and the current timestamp rendered by
isoformat, and the store is returned unchanged (nothing persisted). -/
theorem get_mandi_no_records_mock (district : String) (now : Nat) (s : Store)
    (h : s.mandiprice.all (fun d => !(districtIs d district)) = true) :
    get_mandi_prices district now s =
      (s, .ok (.vList
        [ .vDoc [("district", .vStr district), ("crop", .vStr "Wheat"),
            ("price", .vNum 1850), ("updatedAt", .vStr (isoformat now))],
          .vDoc [("district", .vStr district), ("crop", .vStr "Rice"),
            ("price", .vNum 2100), ("updatedAt", .vStr (isoformat now))] ])) ∧
    (mandiMockList district now).length = 2 := by
  have hfil : s.mandiprice.filter (fun d => districtIs d district) = [] := by
    rw [List.filter_eq_nil_iff]
    intro d hd
    have := List.all_eq_true.mp h d hd
    simpa using this
  refine ⟨?_, rfl⟩
  simp [get_mandi_prices, hfil, sortByUpdatedAtDesc, mandiMockList]

/-- Claim C8: for a crop outside the base table (not Wheat/Rice/Cotton) and
any soil, the handler uses the generic base {N:90, P:40, K:40}, multiplies
each nutrient by 1.0 when the lower-cased soil is "loam" or "clay" and by 0.9
otherwise, and rounds each nutrient to one decimal place. -/
theorem fertilizer_unknown_crop (crop soil : String)
    (h1 : crop ≠ "Wheat") (h2 : crop ≠ "Rice") (h3 : crop ≠ "Cotton") :
    baseTable crop = (90, 40, 40) ∧
    getField (fertilizer_recommendation ⟨crop, soil⟩) "nutrients" =
      some (.vDoc [("N", .vNum (roundTo 1 (90 * fertMult soil))),
                   ("P", .vNum (roundTo 1 (40 * fertMult soil))),
                   ("K", .vNum (roundTo 1 (40 * fertMult soil)))]) ∧
    ((strLower soil = "loam" ∨ strLower soil = "clay") → fertMult soil = 1) ∧
    (¬(strLower soil = "loam" ∨ strLower soil = "clay") → fertMult soil = 9/10) := by
  have hb : baseTable crop = (90, 40, 40) := by simp [baseTable, h1, h2, h3]
  refine ⟨hb, ?_, fun hs => by simp [fertMult, hs], fun hs => by simp [fertMult, hs]⟩
  simp [fertilizer_recommendation, hb, getField, dictGet, List.find?]

/-- Witness for C8 at crop "Maize" (not in the table) and soil "Sandy". -/
theorem fertilizer_unknown_crop_witness :
    ("Maize" ≠ "Wheat") ∧ ("Maize" ≠ "Rice") ∧ ("Maize" ≠ "Cotton") ∧
    (baseTable "Maize" = (90, 40, 40) ∧
     getField (fertilizer_recommendation ⟨"Maize", "Sandy"⟩) "nutrients" =
       some (.vDoc [("N", .vNum (roundTo 1 (90 * fertMult "Sandy"))),
                    ("P", .vNum (roundTo 1 (40 * fertMult "Sandy"))),
                    ("K", .vNum (roundTo 1 (40 * fertMult "Sandy")))]) ∧
     ((strLower "Sandy" = "loam" ∨ strLower "Sandy" = "clay") → fertMult "Sandy" = 1) ∧
     (¬(strLower "Sandy" = "loam" ∨ strLower "Sandy" = "clay") →
       fertMult "Sandy" = 9/10)) :=
  ⟨by decide, by decide, by decide,
   fertilizer_unknown_crop "Maize" "Sandy" (by decide) (by decide) (by decide)⟩

/-- The `update_one` targeting a fresh id walks past every existing document. -/
theorem update_one_append_fresh (old : List Doc) (nd : Doc) (oid : Nat)
    (k : String) (v : Value) (h : freshFor old oid = true) :
    update_one (old ++ [nd]) oid k v = old ++ update_one [nd] oid k v := by
  induction old with
  | nil => simp
  | cons d ds ih =>
    have hd : hasOid d oid = false := by
      have := List.all_eq_true.mp h d (by simp)
      simpa using this
    have hds : freshFor ds oid = true := by
      rw [freshFor, List.all_eq_true]
      intro x hx
      exact List.all_eq_true.mp h x (by simp [hx])
    rw [List.cons_append]
    simp [update_one, hd, ih hds]

/-- Claim C4: every CropDiagnosis record created by the disease-detection
handler — for every userId, crop, filename, non-empty image and store whose
collection does not already contain the fresh id — has probability 0.87 and
diseaseName "Leaf Blight": the handler appends exactly one record and that
record carries the mocked values. -/
theorem detect_disease_mock_contract (userId crop filename : String)
    (content : List Nat) (now : Nat) (s : Store)
    (hc : ¬content.length = 0) (hf : freshFor s.cropdiagnosis s.nextId = true) :
    ∃ rec : Doc,
      (detect_disease userId crop filename content now s).1.cropdiagnosis
        = s.cropdiagnosis ++ [rec] ∧
      dictGet rec "probability" = some (.vNum (87/100)) ∧
      dictGet rec "diseaseName" = some (.vStr "Leaf Blight") := by
  refine ⟨dictSet (dictSet (diagnosisRecord userId crop filename now) "_id"
      (.vObjectId s.nextId)) "diagnosisId" (.vStr (strOfOid s.nextId)), ?_, rfl, rfl⟩
  have hnd : hasOid (dictSet (diagnosisRecord userId crop filename now) "_id"
      (.vObjectId s.nextId)) s.nextId = true := by
    simp [hasOid, dictSet, dictGet, List.find?, diagnosisRecord, uploadUrl]
  simp only [detect_disease, if_neg hc, create_document]
  rw [update_one_append_fresh _ _ _ _ _ hf]
  simp [update_one, hnd]

/-- Witness for C4 at a one-byte upload and the empty store. -/
theorem detect_disease_mock_contract_witness :
    (¬([7] : List Nat).length = 0) ∧ (freshFor emptyStore.cropdiagnosis emptyStore.nextId = true) ∧
    (∃ rec : Doc,
      (detect_disease "u1" "Rice" "leaf.jpg" [7] 3 emptyStore).1.cropdiagnosis
        = emptyStore.cropdiagnosis ++ [rec] ∧
      dictGet rec "probability" = some (.vNum (87/100)) ∧
      dictGet rec "diseaseName" = some (.vStr "Leaf Blight")) :=
  ⟨by decide, rfl,
   detect_disease_mock_contract "u1" "Rice" "leaf.jpg" [7] 3 emptyStore (by decide) rfl⟩

/-- The alert loop emits exactly one "Heavy rain expected" per scanned entry
whose rain amount exceeds 5 (the nonzero-truthiness conjunct is subsumed). -/
theorem alertsOf_eq_replicate (l : List WItem) :
    alertsOf l = List.replicate
      ((l.filter (fun i => decide ((5:ℚ) < rainAmt i))).length)
      (.vStr "Heavy rain expected") := by
  rw [alertsOf]
  have hcong : l.filter (fun i => decide (rainAmt i ≠ 0) && decide ((5:ℚ) < rainAmt i))
      = l.filter (fun i => decide ((5:ℚ) < rainAmt i)) := by
    apply List.filter_congr
    intro i _
    by_cases h5 : (5:ℚ) < rainAmt i
    · have h0 : rainAmt i ≠ 0 := by
        intro h
        rw [h] at h5
        norm_num at h5
      simp [h5, h0]
    · simp [h5]
  rw [hcong]
  generalize l.filter (fun i => decide ((5:ℚ) < rainAmt i)) = m
  induction m with
  | nil => simp
  | cons a as ih => simp [List.replicate_succ, ih]

/-- Claim C6: on a successful live provider response the handler takes the
first 5 forecast entries; with k of those entries having rain amount > 5 the
alerts list is exactly k copies of "Heavy rain expected", and when k = 0 it
is exactly the single element "No severe alerts". -/
theorem get_weather_live_alerts (key loc dt : String) (temp hum : ℚ)
    (desc : String) (descs : List String) (rain : Option ℚ) (rest : List WItem)
    (hk : key ≠ "") :
    get_weather key loc (.ok ⟨WItem.mk dt temp hum (desc :: descs) rain :: rest⟩) =
      .ok (.vDoc [("location", .vStr loc), ("mock", .vBool false),
        ("current", .vDoc [("temp", .vNum temp), ("humidity", .vNum hum),
          ("desc", .vStr desc)]),
        ("forecast_3h", .vList
          (((WItem.mk dt temp hum (desc :: descs) rain :: rest).take 5).map forecastEntry)),
        ("alerts", .vList
          (if (((WItem.mk dt temp hum (desc :: descs) rain :: rest).take 5).filter
                 (fun i => decide ((5:ℚ) < rainAmt i))).length = 0
           then [.vStr "No severe alerts"]
           else List.replicate
             ((((WItem.mk dt temp hum (desc :: descs) rain :: rest).take 5).filter
                 (fun i => decide ((5:ℚ) < rainAmt i))).length)
             (.vStr "Heavy rain expected")))]) := by
  simp only [get_weather, if_neg hk]
  rw [alertsOf_eq_replicate]
  generalize (((WItem.mk dt temp hum (desc :: descs) rain :: rest).take 5).filter
      (fun i => decide ((5:ℚ) < rainAmt i))).length = k
  cases k with
  | zero => simp
  | succ k' => simp [List.replicate_succ]

/-- Witness for C6: a live call with one forecast entry whose rain is 10. -/
theorem get_weather_live_alerts_witness :
    ("k" ≠ "") ∧
    (get_weather "k" "L" (.ok ⟨WItem.mk "t0" 20 50 ("clear" :: []) (some 10) :: []⟩) =
      .ok (.vDoc [("location", .vStr "L"), ("mock", .vBool false),
        ("current", .vDoc [("temp", .vNum 20), ("humidity", .vNum 50),
          ("desc", .vStr "clear")]),
        ("forecast_3h", .vList
          (((WItem.mk "t0" 20 50 ("clear" :: []) (some 10) :: []).take 5).map forecastEntry)),
        ("alerts", .vList
          (if (((WItem.mk "t0" 20 50 ("clear" :: []) (some 10) :: []).take 5).filter
                 (fun i => decide ((5:ℚ) < rainAmt i))).length = 0
           then [.vStr "No severe alerts"]
           else List.replicate
             ((((WItem.mk "t0" 20 50 ("clear" :: []) (some 10) :: []).take 5).filter
                 (fun i => decide ((5:ℚ) < rainAmt i))).length)
             (.vStr "Heavy rain expected")))])) :=
  ⟨by decide, get_weather_live_alerts "k" "L" "t0" 20 50 "clear" [] (some 10) [] (by decide)⟩

/-- Witness for C9 at a concrete district and the empty store. -/
theorem get_mandi_no_records_mock_witness :
    ((emptyStore.mandiprice.all (fun d => !(districtIs d "Pune"))) = true) ∧
    (get_mandi_prices "Pune" 5 emptyStore =
      (emptyStore, .ok (.vList
        [ .vDoc [("district", .vStr "Pune"), ("crop", .vStr "Wheat"),
            ("price", .vNum 1850), ("updatedAt", .vStr (isoformat 5))],
          .vDoc [("district", .vStr "Pune"), ("crop", .vStr "Rice"),
            ("price", .vNum 2100), ("updatedAt", .vStr (isoformat 5))] ])) ∧
      (mandiMockList "Pune" 5).length = 2) :=
  ⟨rfl, get_mandi_no_records_mock "Pune" 5 emptyStore rfl⟩

-- ----------------------------------------------------------------------
-- Idempotence of the boundary normalization
-- ----------------------------------------------------------------------

theorem isoConv_isoConv (v : Value) : isoConv (isoConv v) = isoConv v := by
  cases v <;> rfl

theorem mapIso_mapIso (d : Doc) : mapIso (mapIso d) = mapIso d := by
  simp only [mapIso, List.map_map]
  apply List.map_congr_left
  intro p _
  simp [Function.comp, isoConv_isoConv]

theorem isoConv_of_not_truthy (v : Value) (h : v.truthy = false) : isoConv v = v := by
  cases v <;> first
    | rfl
    | simp [Value.truthy] at h

theorem renameId_of_none (d : Doc) (h : dictGet d "_id" = none) : renameId d = d := by
  simp [renameId, h]

theorem renameId_of_not_truthy (d : Doc) (v : Value) (h : dictGet d "_id" = some v)
    (ht : v.truthy = false) : renameId d = d := by
  simp [renameId, h, ht]

theorem dictGet_renameId_idFree (d : Doc) :
    dictGet (renameId d) "_id" = none ∨
    ∃ v, dictGet (renameId d) "_id" = some v ∧ v.truthy = false := by
  cases hg : dictGet d "_id" with
  | none =>
    left
    rw [renameId_of_none d hg]
    exact hg
  | some v =>
    by_cases ht : v.truthy = true
    · left
      have hr : renameId d = dictSet (dictRemove d "_id") "id" (.vStr v.pyStr) := by
        simp [renameId, hg, ht]
      rw [hr, dictGet_dictSet_ne _ _ _ _ (by decide : "_id" ≠ "id")]
      exact dictGet_dictRemove_self d "_id"
    · right
      have ht2 : v.truthy = false := by simpa using ht
      exact ⟨v, by rw [renameId_of_not_truthy d v hg ht2]; exact hg, ht2⟩

theorem normDict_normDict (d : Doc) : normDict (normDict d) = normDict d := by
  rw [normDict, normDict]
  cases dictGet_renameId_idFree d with
  | inl h0 =>
    have hn : dictGet (mapIso (renameId d)) "_id" = none := by
      rw [dictGet_mapIso, h0]
      rfl
    rw [renameId_of_none _ hn]
    exact mapIso_mapIso _
  | inr h1 =>
    obtain ⟨v, hv, ht⟩ := h1
    have hs : dictGet (mapIso (renameId d)) "_id" = some v := by
      rw [dictGet_mapIso, hv]
      simp [isoConv_of_not_truthy v ht]
    rw [renameId_of_not_truthy _ v hs ht]
    exact mapIso_mapIso _

theorem dictSet_ne_nil (d : Doc) (k : String) (v : Value) : dictSet d k v ≠ [] := by
  cases d with
  | nil => simp [dictSet]
  | cons p ps =>
    by_cases hp : p.1 == k <;> simp [dictSet, hp]

theorem normDict_ne_nil (d : Doc) (h : d ≠ []) : normDict d ≠ [] := by
  have hr : renameId d ≠ [] := by
    cases hg : dictGet d "_id" with
    | none =>
      rw [renameId_of_none d hg]
      exact h
    | some v =>
      by_cases ht : v.truthy = true
      · have : renameId d = dictSet (dictRemove d "_id") "id" (.vStr v.pyStr) := by
          simp [renameId, hg, ht]
        rw [this]
        exact dictSet_ne_nil _ _ _
      · rw [renameId_of_not_truthy d v hg (by simpa using ht)]
        exact h
  rw [normDict]
  simpa [mapIso] using hr

theorem oid_to_str_oid_to_str : ∀ (v : Value), oid_to_str (oid_to_str v) = oid_to_str v
  | .vNull => rfl
  | .vBool _ => rfl
  | .vNum _ => rfl
  | .vStr _ => rfl
  | .vObjectId _ => rfl
  | .vDateTime _ => rfl
  | .vDoc d => by
    by_cases hd : d.isEmpty
    · have hde : d = [] := by simpa [List.isEmpty_iff] using hd
      subst hde
      rfl
    · have hne : ¬d = [] := by simpa [List.isEmpty_iff] using hd
      have h1 : oid_to_str (.vDoc d) = .vDoc (normDict d) := by
        simp [oid_to_str, hd]
      have h2 : (normDict d).isEmpty = false := by
        simpa [List.isEmpty_iff] using normDict_ne_nil d hne
      rw [h1]
      simp [oid_to_str, h2, normDict_normDict]
  | .vList l => by
    by_cases hl : l.isEmpty
    · have hle : l = [] := by simpa [List.isEmpty_iff] using hl
      subst hle
      rfl
    · have h1 : oid_to_str (.vList l) = .vList (oid_to_str_list l) := by
        simp [oid_to_str, hl]
      have h2 : (oid_to_str_list l).isEmpty = false := by
        rw [oid_to_str_list_eq_map]
        cases l with
        | nil => simp at hl
        | cons a as => simp
      have h3 : oid_to_str_list (oid_to_str_list l) = oid_to_str_list l := by
        rw [oid_to_str_list_eq_map, oid_to_str_list_eq_map, List.map_map]
        apply List.map_congr_left
        intro a ha
        have := oid_to_str_oid_to_str a
        simpa [Function.comp] using this
      rw [h1]
      simp [oid_to_str, h2, h3]
termination_by v => sizeOf v
decreasing_by
  simp_wf
  have hlt := List.sizeOf_lt_of_mem ha
  omega

/-- Claim C10: the boundary normalization `oid_to_str` is idempotent — for
every value (dict, list of dicts, or anything else), applying it twice yields
the same result as applying it once: after one application no renamable `_id`
and no raw datetime field remains at the levels the function touches. -/
theorem oid_to_str_idempotent (v : Value) :
    oid_to_str (oid_to_str v) = oid_to_str v :=
  oid_to_str_oid_to_str v

-- ----------------------------------------------------------------------
-- Normalized shape of values crossing the boundary
-- ----------------------------------------------------------------------

theorem dictGet_eq_none_key (d : Doc) (k : String) (h : dictGet d k = none) :
    ∀ p ∈ d, (p.1 == k) = false := by
  intro p hp
  induction d with
  | nil => simp at hp
  | cons q qs ih =>
    by_cases hq : (q.1 == k) = true
    · simp [dictGet, List.find?, hq] at h
    · have hq' : (q.1 == k) = false := by simpa using hq
      have h2 : dictGet qs k = none := by
        simpa [dictGet, List.find?, hq'] using h
      rcases List.mem_cons.mp hp with rfl | hp2
      · exact hq'
      · exact ih h2 hp2

theorem dictGet_some_mem (d : Doc) (k : String) (v : Value)
    (h : dictGet d k = some v) : ∃ p, p ∈ d ∧ p.1 = k ∧ p.2 = v := by
  induction d with
  | nil => simp [dictGet] at h
  | cons q qs ih =>
    by_cases hq : (q.1 == k) = true
    · refine ⟨q, List.mem_cons_self q qs, by simpa using hq, ?_⟩
      simpa [dictGet, List.find?, hq] using h
    · have hq' : (q.1 == k) = false := by simpa using hq
      have h2 : dictGet qs k = some v := by
        simpa [dictGet, List.find?, hq'] using h
      obtain ⟨p, hp, hk2, hv2⟩ := ih h2
      exact ⟨p, List.mem_cons_of_mem q hp, hk2, hv2⟩

theorem isObjectId_eq (v : Value) (h : isObjectId v = true) :
    ∃ n, v = .vObjectId n := by
  cases v <;> first
    | exact ⟨_, rfl⟩
    | simp [isObjectId] at h

theorem isDateTime_eq (v : Value) (h : isDateTime v = true) :
    ∃ t, v = .vDateTime t := by
  cases v <;> first
    | exact ⟨_, rfl⟩
    | simp [isDateTime] at h

theorem shape_id_value (d : Doc) (h : docShapeB d = true) (v : Value)
    (hg : dictGet d "_id" = some v) : ∃ n, v = .vObjectId n := by
  obtain ⟨p, hmem, hk, hv⟩ := dictGet_some_mem d "_id" v hg
  have hshape := List.all_eq_true.mp h p hmem
  rw [valShape, if_pos (by simp [hk])] at hshape
  subst hv
  exact isObjectId_eq p.2 hshape

theorem mem_dictSet (x : Doc) (k : String) (v : Value) (p : String × Value)
    (hp : p ∈ dictSet x k v) : p = (k, v) ∨ p ∈ x := by
  induction x with
  | nil =>
    left
    simpa [dictSet] using hp
  | cons q qs ih =>
    by_cases hq : q.1 == k
    · rw [dictSet, if_pos hq] at hp
      rcases List.mem_cons.mp hp with h | h
      · left; exact h
      · right; exact List.mem_cons_of_mem q h
    · rw [dictSet, if_neg hq] at hp
      rcases List.mem_cons.mp hp with h | h
      · right; rw [h]; exact List.mem_cons_self q qs
      · rcases ih h with h2 | h2
        · left; exact h2
        · right; exact List.mem_cons_of_mem q h2

theorem mem_dictRemove (d : Doc) (k : String) (p : String × Value)
    (hp : p ∈ dictRemove d k) : p ∈ d ∧ (p.1 == k) = false := by
  rw [dictRemove] at hp
  have h2 := List.mem_filter.mp hp
  refine ⟨h2.1, ?_⟩
  have h3 := h2.2
  simp only [Bool.not_eq_eq_eq_not, Bool.not_true] at h3
  exact h3

theorem cleanDoc_eq_all (d : Doc) : cleanDoc d = d.all (fun p => p.2.clean) := by
  induction d with
  | nil => rfl
  | cons p ps ih => simp [cleanDoc, ih]

theorem clean_isoConv (v : Value)
    (hv : v.clean = true ∨ ∃ t, v = .vDateTime t) : (isoConv v).clean = true := by
  rcases hv with h | ⟨t, rfl⟩
  · cases v <;> first
      | exact h
      | simp [Value.clean] at h
  · rfl

theorem shape_non_id (d : Doc) (h : docShapeB d = true) (p : String × Value)
    (hp : p ∈ d) (hk : (p.1 == "_id") = false) :
    p.2.clean = true ∨ ∃ t, p.2 = .vDateTime t := by
  have hshape := List.all_eq_true.mp h p hp
  rw [valShape, if_neg (by simp [hk])] at hshape
  rcases (Bool.or_eq_true _ _).mp hshape with hdt | hcl
  · exact Or.inr (isDateTime_eq p.2 hdt)
  · exact Or.inl hcl

theorem cleanDoc_normDict (d : Doc) (h : docShapeB d = true) :
    cleanDoc (normDict d) = true := by
  rw [cleanDoc_eq_all, normDict, List.all_eq_true]
  intro p hp
  simp only [mapIso, List.mem_map] at hp
  obtain ⟨q, hq, rfl⟩ := hp
  apply clean_isoConv
  cases hg : dictGet d "_id" with
  | none =>
    rw [renameId_of_none d hg] at hq
    exact shape_non_id d h q hq (dictGet_eq_none_key d "_id" hg q hq)
  | some v =>
    obtain ⟨n, rfl⟩ := shape_id_value d h v hg
    have hr : renameId d
        = dictSet (dictRemove d "_id") "id" (.vStr (Value.pyStr (.vObjectId n))) := by
      simp [renameId, hg, Value.truthy]
    rw [hr] at hq
    rcases mem_dictSet _ _ _ _ hq with rfl | hq2
    · left; rfl
    · obtain ⟨hqd, hqk⟩ := mem_dictRemove d "_id" q hq2
      exact shape_non_id d h q hqd hqk

/-- Claim C1: for every store-shaped document, the boundary normalization
`oid_to_str` yields a value free of the store-native identifier type and of
raw timestamps; when the document carries `_id = ObjectId n`, the output has
no `_id` field and instead an `id` field holding the identifier rendered as a
string; every other timestamp-valued field is rendered as its iso text; the
very same function handles sequences by acting element-wise; and the mandi
mock fallback list already has this normalized form — it is a fixed point of
the function and contains no ObjectId and no raw timestamp. -/
theorem oid_to_str_normalizes (d : Doc) (h : docShapeB d = true) :
    Value.clean (oid_to_str (.vDoc d)) = true ∧
    (∀ n, dictGet d "_id" = some (.vObjectId n) →
      oid_to_str (.vDoc d) = .vDoc (normDict d) ∧
      dictGet (normDict d) "_id" = none ∧
      dictGet (normDict d) "id" = some (.vStr (strOfOid n))) ∧
    (∀ k t, k ≠ "_id" → k ≠ "id" → dictGet d k = some (.vDateTime t) →
      dictGet (normDict d) k = some (.vStr (isoformat t))) ∧
    (∀ l : List Value, oid_to_str (.vList l) = .vList (l.map oid_to_str)) ∧
    (∀ district now, oid_to_str (.vList (mandiMockList district now))
        = .vList (mandiMockList district now) ∧
      Value.clean (.vList (mandiMockList district now)) = true) := by
  refine ⟨?_, ?_, ?_, ?_, fun district now => ⟨rfl, rfl⟩⟩
  · by_cases hd : d.isEmpty
    · have hde : d = [] := by simpa [List.isEmpty_iff] using hd
      subst hde
      rfl
    · have h1 : oid_to_str (.vDoc d) = .vDoc (normDict d) := by
        simp [oid_to_str, hd]
      rw [h1]
      show cleanDoc (normDict d) = true
      exact cleanDoc_normDict d h
  · intro n hg
    have hne : ¬d = [] := by
      intro hde
      rw [hde] at hg
      simp [dictGet] at hg
    have hd : d.isEmpty = false := by simpa [List.isEmpty_iff] using hne
    have hr : renameId d
        = dictSet (dictRemove d "_id") "id" (.vStr (Value.pyStr (.vObjectId n))) := by
      simp [renameId, hg, Value.truthy]
    refine ⟨by simp [oid_to_str, hd], ?_, ?_⟩
    · rw [normDict, dictGet_mapIso, hr,
        dictGet_dictSet_ne _ _ _ _ (by decide : "_id" ≠ "id"),
        dictGet_dictRemove_self]
      rfl
    · rw [normDict, dictGet_mapIso, hr, dictGet_dictSet_self]
      rfl
  · intro k t hk1 hk2 hg
    have hren : dictGet (renameId d) k = dictGet d k := by
      cases hgid : dictGet d "_id" with
      | none => rw [renameId_of_none d hgid]
      | some v =>
        obtain ⟨n, rfl⟩ := shape_id_value d h v hgid
        have hr : renameId d
            = dictSet (dictRemove d "_id") "id" (.vStr (Value.pyStr (.vObjectId n))) := by
          simp [renameId, hgid, Value.truthy]
        rw [hr, dictGet_dictSet_ne _ _ _ _ hk2, dictGet_dictRemove_ne _ _ _ hk1]
    rw [normDict, dictGet_mapIso, hren, hg]
    rfl
  · intro l
    cases l with
    | nil => rfl
    | cons a as => simp [oid_to_str, oid_to_str_list_eq_map]

/-- Witness for C1 at a concrete stored document carrying an ObjectId `_id`,
a string field and a raw timestamp field. -/
theorem oid_to_str_normalizes_witness :
    docShapeB [("_id", Value.vObjectId 7), ("name", Value.vStr "Asha"),
      ("createdAt", Value.vDateTime 3)] = true ∧
    (Value.clean (oid_to_str (.vDoc [("_id", Value.vObjectId 7),
        ("name", Value.vStr "Asha"), ("createdAt", Value.vDateTime 3)])) = true ∧
     (∀ n, dictGet [("_id", Value.vObjectId 7), ("name", Value.vStr "Asha"),
          ("createdAt", Value.vDateTime 3)] "_id" = some (.vObjectId n) →
        oid_to_str (.vDoc [("_id", Value.vObjectId 7), ("name", Value.vStr "Asha"),
            ("createdAt", Value.vDateTime 3)])
          = .vDoc (normDict [("_id", Value.vObjectId 7), ("name", Value.vStr "Asha"),
              ("createdAt", Value.vDateTime 3)]) ∧
        dictGet (normDict [("_id", Value.vObjectId 7), ("name", Value.vStr "Asha"),
            ("createdAt", Value.vDateTime 3)]) "_id" = none ∧
        dictGet (normDict [("_id", Value.vObjectId 7), ("name", Value.vStr "Asha"),
            ("createdAt", Value.vDateTime 3)]) "id" = some (.vStr (strOfOid n))) ∧
     (∀ k t, k ≠ "_id" → k ≠ "id" →
        dictGet [("_id", Value.vObjectId 7), ("name", Value.vStr "Asha"),
            ("createdAt", Value.vDateTime 3)] k = some (.vDateTime t) →
        dictGet (normDict [("_id", Value.vObjectId 7), ("name", Value.vStr "Asha"),
            ("createdAt", Value.vDateTime 3)]) k = some (.vStr (isoformat t))) ∧
     (∀ l : List Value, oid_to_str (.vList l) = .vList (l.map oid_to_str)) ∧
     (∀ district now, oid_to_str (.vList (mandiMockList district now))
         = .vList (mandiMockList district now) ∧
       Value.clean (.vList (mandiMockList district now)) = true)) :=
  ⟨by decide,
   oid_to_str_normalizes [("_id", Value.vObjectId 7), ("name", Value.vStr "Asha"),
     ("createdAt", Value.vDateTime 3)] (by decide)⟩

end SmartKrishi
